import Mathlib

/-!
Shallow embedding of `src/graphics/image.rs` (the `Image` texture resource
of a 2D game-rendering library): raw texture construction and validation,
the solid-color helper, sampler accessors, the draw path with blend-mode
reconciliation, and the GPU readback path.

External collaborators (the gfx backend, the sampler cache, the render
context, the filesystem and the image codec) are embedded as explicit
state (`GfxState`) and a failure environment (`GfxEnv`) that says which
backend operations fail.  Machine integers (`u16`, `u32`, `usize`) are
embedded as `Nat` (no arithmetic in the source can overflow `usize` on the
relevant inputs); `f32` scale arithmetic is embedded over `ℚ`.
-/

/-- Blend modes of the render pipeline.
Modelled from the spec: `BlendMode` is defined outside the given source
slice; the spec describes it as an enumerated GPU pipeline setting, and the
code only copies and compares values of it, so an enumeration with decidable
equality is faithful. -/
inductive BlendMode where
  | alpha
  | add
  | subtract
  | invert
  | multiply
  | replace
  | lighten
  | darken
deriving DecidableEq, Repr

/-- Texture filter modes.
Modelled from the spec: `FilterMode` lives outside the given source slice;
the code only stores and retrieves it through `sampler_info.filter`. -/
inductive FilterMode where
  | nearest
  | linear
deriving DecidableEq, Repr

/-- Texture wrap modes.
Modelled from the spec: `WrapMode` lives outside the given source slice;
the code only stores and retrieves it per axis. -/
inductive WrapMode where
  | clamp
  | tile
  | mirror
deriving DecidableEq, Repr

/-- `gfx::texture::SamplerInfo`: a value-type sampler descriptor.
Modelled from the spec: {filter mode, wrap mode per axis}; the
backend-specific extra fields are never touched by this module. -/
structure SamplerInfo where
  filter : FilterMode
  wrap_mode : WrapMode × WrapMode
deriving DecidableEq, Repr

/-- Error type returned by every fallible operation.
Modelled from the spec: invalid-parameter / resource-load errors carry a
descriptive message; backend (render) errors wrap the underlying failure;
I/O and codec errors are surfaced distinctly. -/
inductive GameError where
  | ResourceLoadError (msg : String)
  | RenderError (msg : String)
  | IOError (msg : String)
  | CodecError (msg : String)
deriving DecidableEq, Repr

/-- A 2D point with rational coordinates (embedding of `Point2<f32>`;
the draw path only multiplies coordinates, which `ℚ` models exactly). -/
structure Point2 where
  x : ℚ
  y : ℚ
deriving DecidableEq, Repr

/-- A rectangle (embedding of `Rect` with `f32` fields). -/
structure Rect where
  x : ℚ
  y : ℚ
  w : ℚ
  h : ℚ
deriving DecidableEq, Repr

/-- `Rect::new` (used by `get_dimensions`). -/
def Rect.new (x y w h : ℚ) : Rect := ⟨x, y, w, h⟩

/-- Draw parameters.
Modelled from the spec: the drawable/draw-parameter system is an excluded
collaborator; `draw_ex` reads `src` and `scale` and leaves every other field
alone, so the remaining fields are collapsed into one opaque `rest` field. -/
structure DrawParam where
  src : Rect
  scale : Point2
  rest : Nat
deriving DecidableEq, Repr

/-- A color. Modelled from the spec: `Color` lives outside the given source
slice; `solid` only uses its conversion into a 4-byte RGBA tuple
(`let (r, g, b, a) = color.into()`), so the color is embedded directly as
those four channel bytes. -/
structure Color where
  r : Nat
  g : Nat
  b : Nat
  a : Nat
deriving DecidableEq, Repr

/-- The `Image` resource: `data` is the byte content of the GPU texture
(the RGBA8 buffer uploaded at construction, rows top-to-bottom), standing
for what `texture`/`texture_handle` reference on the GPU; the remaining
fields mirror the struct fields of `ImageGeneric`. -/
structure Image where
  data : List Nat
  sampler_info : SamplerInfo
  blend_mode : Option BlendMode
  width : Nat
  height : Nat
deriving DecidableEq, Repr

/-- Failure environment: which external (GPU backend) operations fail.
Each flag makes the corresponding collaborator call return an error, so
theorems can quantify over every success/failure interleaving. -/
structure GfxEnv where
  updateFails : Bool
  setBlendFails : Bool
  drawFails : Bool
  allocFails : Bool
  bufferFails : Bool
  copyFails : Bool
  mapFails : Bool
deriving DecidableEq, Repr

/-- The environment in which every backend operation succeeds. -/
def okEnv : GfxEnv := ⟨false, false, false, false, false, false, false⟩

/-- Observable state of the render context (`ctx.gfx_context`):
the active blend mode, the last uploaded instance properties, the sampler
cache, the currently bound vertex buffer / texture+sampler pair, and a log
of the blend mode that was active at each issued draw call. -/
structure GfxState where
  blend_mode : BlendMode
  instance_param : Option DrawParam
  samplers : List SamplerInfo
  vbuf_bound : Bool
  tex : Option (List Nat × SamplerInfo)
  draw_log : List BlendMode
deriving DecidableEq, Repr

/-- `gfx.update_instance_properties(new_param)`: uploads per-instance data;
may fail (instance buffer full / GPU upload failure per the spec). -/
def update_instance_properties (env : GfxEnv) (gfx : GfxState) (p : DrawParam) :
    GfxState × Except GameError Unit :=
  if env.updateFails then
    (gfx, .error (.RenderError "update_instance_properties failed"))
  else
    ({ gfx with instance_param := some p }, .ok ())

/-- `gfx.samplers.get_or_insert(sampler_info, factory)`: resolves a sampler
through the cache, inserting it if absent, and returns the handle (embedded
as the descriptor itself). -/
def GfxState.get_or_insert (gfx : GfxState) (si : SamplerInfo) :
    GfxState × SamplerInfo :=
  if si ∈ gfx.samplers then (gfx, si)
  else ({ gfx with samplers := gfx.samplers ++ [si] }, si)

/-- `gfx.get_blend_mode()`. -/
def GfxState.get_blend_mode (gfx : GfxState) : BlendMode :=
  gfx.blend_mode

/-- `gfx.set_blend_mode(mode)`: fallible (it reconfigures the pipeline). -/
def GfxState.set_blend_mode (env : GfxEnv) (gfx : GfxState) (m : BlendMode) :
    GfxState × Except GameError Unit :=
  if env.setBlendFails then
    (gfx, .error (.RenderError "set_blend_mode failed"))
  else
    ({ gfx with blend_mode := m }, .ok ())

/-- `gfx.draw(None)`: issues the draw call; on success the blend mode that
was active for this draw is appended to the draw log. -/
def GfxState.draw (env : GfxEnv) (gfx : GfxState) :
    GfxState × Except GameError Unit :=
  if env.drawFails then
    (gfx, .error (.RenderError "draw failed"))
  else
    ({ gfx with draw_log := gfx.draw_log ++ [gfx.blend_mode] }, .ok ())

/-- Error message for a zero dimension, exactly as formatted by `make_raw`
(the source's format string literally contains the line break and the
following indentation). -/
def sizeErrMsg (width height : Nat) : String :=
  s!"Tried to create a texture of size {width}x{height}, each dimension must\n                be >0"

/-- Error message for a buffer-length mismatch, exactly as formatted by
`make_raw`. -/
def lenErrMsg (width height actual expected : Nat) : String :=
  s!"Tried to create a texture of size {width}x{height}, but gave {actual} bytes of data (expected {expected})"

/-- `Image::make_raw`: validates the dimensions and the buffer length, then
allocates the GPU texture.  The second component reports whether a GPU
texture allocation was attempted (i.e. whether control reached
`create_texture_immutable_u8`). -/
def Image.make_raw (env : GfxEnv) (sampler_info : SamplerInfo)
    (width height : Nat) (rgba : List Nat) :
    Except GameError Image × Bool :=
  if width = 0 ∨ height = 0 then
    (.error (.ResourceLoadError (sizeErrMsg width height)), false)
  else
    let expected_bytes := width * height * 4
    if expected_bytes ≠ rgba.length then
      (.error (.ResourceLoadError (lenErrMsg width height rgba.length expected_bytes)), false)
    else if env.allocFails then
      (.error (.RenderError "texture allocation failed"), true)
    else
      (.ok { data := rgba
             sampler_info := sampler_info
             blend_mode := none
             width := width
             height := height }, true)

/-- `Image::from_rgba8`: delegates to `make_raw` with the context's default
sampler descriptor. -/
def Image.from_rgba8 (env : GfxEnv) (default_sampler_info : SamplerInfo)
    (width height : Nat) (rgba : List Nat) :
    Except GameError Image × Bool :=
  Image.make_raw env default_sampler_info width height rgba

/-- `Image::solid`: builds a `size*size` buffer by repeating the color's
4-byte pixel pattern, then delegates to `from_rgba8`. -/
def Image.solid (env : GfxEnv) (default_sampler_info : SamplerInfo)
    (size : Nat) (color : Color) :
    Except GameError Image × Bool :=
  let pixel_array : List Nat := [color.r, color.g, color.b, color.a]
  let size_squared := size * size
  let buffer := (List.replicate size_squared pixel_array).flatten
  Image.from_rgba8 env default_sampler_info size size buffer

/-- `Image::new`: reads and decodes a file, then delegates to `from_rgba8`.
Modelled from the spec: the filesystem `open`/read and the codec decode are
excluded collaborators, embedded as a pre-supplied `decoded` result carrying
either an I/O / codec error or the decoded `u32` dimensions and RGBA8
buffer; `new` then truncates each dimension `as u16` (mod 2^16) and calls
`from_rgba8`. -/
def Image.new (env : GfxEnv) (default_sampler_info : SamplerInfo)
    (decoded : Except GameError (Nat × Nat × List Nat)) :
    Except GameError Image × Bool :=
  match decoded with
  | .error e => (.error e, false)
  | .ok (width, height, rgba) =>
      Image.from_rgba8 env default_sampler_info (width % 65536) (height % 65536) rgba

/-- `Image::width`. -/
def Image.width_fn (self : Image) : Nat := self.width

/-- `Image::height`. -/
def Image.height_fn (self : Image) : Nat := self.height

/-- `Image::get_dimensions`. -/
def Image.get_dimensions (self : Image) : Rect :=
  Rect.new 0 0 (self.width_fn : ℚ) (self.height_fn : ℚ)

/-- `Image::get_filter`. -/
def Image.get_filter (self : Image) : FilterMode :=
  self.sampler_info.filter

/-- `Image::set_filter` (functional embedding of the `&mut self` update). -/
def Image.set_filter (self : Image) (mode : FilterMode) : Image :=
  { self with sampler_info := { self.sampler_info with filter := mode } }

/-- `Image::get_wrap`. -/
def Image.get_wrap (self : Image) : WrapMode × WrapMode :=
  (self.sampler_info.wrap_mode.1, self.sampler_info.wrap_mode.2)

/-- `Image::set_wrap` (functional embedding of the `&mut self` update). -/
def Image.set_wrap (self : Image) (wrap_x wrap_y : WrapMode) : Image :=
  { self with sampler_info := { self.sampler_info with wrap_mode := (wrap_x, wrap_y) } }

/-- `Drawable::set_blend_mode` for `Image`. -/
def Image.set_blend_mode (self : Image) (mode : Option BlendMode) : Image :=
  { self with blend_mode := mode }

/-- `Drawable::get_blend_mode` for `Image`. -/
def Image.get_blend_mode (self : Image) : Option BlendMode :=
  self.blend_mode

/-- Fuel-driven worker for `chunksOf` (structural recursion on the fuel so
that concrete instances reduce definitionally; the fuel is always the
list's length, which bounds the number of chunks when `n ≠ 0`). -/
def chunksOfAux {α : Type} (n : Nat) : Nat → List α → List (List α)
  | 0, _ => []
  | _, [] => []
  | fuel + 1, x :: xs =>
      List.take n (x :: xs) :: chunksOfAux n fuel (List.drop n (x :: xs))

/-- Rust's `slice::chunks(n)`: split a list into consecutive chunks of `n`
elements (the last chunk may be shorter).  `chunks(0)` panics in Rust and
never occurs in this module; the embedding returns `[]` for `n = 0`. -/
def chunksOf {α : Type} (n : Nat) (l : List α) : List (List α) :=
  if n = 0 then [] else chunksOfAux n l.length l

lemma chunksOfAux_nil {α : Type} (n fuel : Nat) :
    chunksOfAux n fuel ([] : List α) = [] := by
  cases fuel <;> rfl

lemma chunksOfAux_fuel_irrel {α : Type} (n : Nat) (hn : n ≠ 0) :
    ∀ (fuel₁ fuel₂ : Nat) (l : List α), l.length ≤ fuel₁ → l.length ≤ fuel₂ →
      chunksOfAux n fuel₁ l = chunksOfAux n fuel₂ l := by
  intro fuel₁
  induction fuel₁ with
  | zero =>
      intro fuel₂ l h1 _
      have : l = [] := List.eq_nil_of_length_eq_zero (Nat.le_zero.mp h1)
      subst this
      rw [chunksOfAux_nil, chunksOfAux_nil]
  | succ f ih =>
      intro fuel₂ l h1 h2
      cases l with
      | nil => rw [chunksOfAux_nil, chunksOfAux_nil]
      | cons x xs =>
          cases fuel₂ with
          | zero => simp at h2
          | succ g =>
              have hdrop : (List.drop n (x :: xs)).length ≤ xs.length := by
                simp only [List.length_drop, List.length_cons]
                omega
              simp only [chunksOfAux]
              rw [ih g (List.drop n (x :: xs))
                    (Nat.le_trans hdrop (by simpa using Nat.succ_le_succ_iff.mp h1))
                    (Nat.le_trans hdrop (by simpa using Nat.succ_le_succ_iff.mp h2))]

/-- `chunksOf` on the empty list. -/
lemma chunksOf_nil {α : Type} (n : Nat) : chunksOf n ([] : List α) = [] := by
  unfold chunksOf
  split <;> simp [chunksOfAux_nil]

/-- Unfolding equation of `chunksOf` on a nonempty list (for `n ≠ 0`). -/
lemma chunksOf_cons {α : Type} (n : Nat) (hn : n ≠ 0) (x : α) (xs : List α) :
    chunksOf n (x :: xs) =
      List.take n (x :: xs) :: chunksOf n (List.drop n (x :: xs)) := by
  unfold chunksOf
  rw [if_neg hn, if_neg hn]
  simp only [List.length_cons, chunksOfAux]
  rw [chunksOfAux_fuel_irrel n hn xs.length (List.drop n (x :: xs)).length
        (List.drop n (x :: xs))
        (by simp only [List.length_drop, List.length_cons]; omega)
        (Nat.le_refl _)]

/-- The texels of an image's texture, row-major top-to-bottom as uploaded
(each texel is its 4 RGBA bytes, the `SurfaceData = [u8; 4]` of the code). -/
def Image.texels (self : Image) : List (List Nat) :=
  chunksOf 4 self.data

/-- Contents of the mapped download buffer after
`copy_texture_to_buffer_raw` + `flush` + `read_mapping`.
Modelled from the spec: the GPU copies the texture's `width*height` texels
into the front of the buffer with rows physically ordered bottom-to-top
(GPU convention); the rest of the `screen_w*screen_h`-texel buffer is
uninitialized, embedded as an arbitrary `junk` suffix. -/
def Image.mappedBuffer (self : Image) (screen_w screen_h : Nat)
    (junk : List (List Nat)) : List (List Nat) :=
  List.take (screen_w * screen_h)
    ((chunksOf self.width self.texels).reverse.flatten ++ junk)

/-- `Image::to_rgba8`: reads the texture back into a flat RGBA8 byte
buffer.  `screen_w`/`screen_h` are the render target's dimensions — the
code sizes the download buffer and chunks rows with
`gfx.data.out.get_dimensions()`, NOT with the image's own dimensions. -/
def Image.to_rgba8 (env : GfxEnv) (self : Image) (screen_w screen_h : Nat)
    (junk : List (List Nat)) : Except GameError (List Nat) :=
  if env.bufferFails then .error (.RenderError "create_download_buffer failed")
  else if env.copyFails then .error (.RenderError "copy_texture_to_buffer failed")
  else if env.mapFails then .error (.RenderError "read_mapping failed")
  else
    let reader := self.mappedBuffer screen_w screen_h junk
    .ok ((chunksOf screen_w reader).reverse.flatten.flatten)

/-- `Drawable::draw_ex` for `Image`: scales the instance, uploads instance
properties, resolves the sampler, binds buffers, reconciles the blend mode,
issues the draw and restores the blend mode.  Returns the final context
state together with the call's result; an early `?` return leaves the
state as it was at the point of failure. -/
def Image.draw_ex (env : GfxEnv) (self : Image) (gfx : GfxState)
    (param : DrawParam) : GfxState × Except GameError Unit :=
  let src_width := param.src.w
  let src_height := param.src.h
  let real_scale : Point2 :=
    ⟨src_width * param.scale.x * (self.width : ℚ),
     src_height * param.scale.y * (self.height : ℚ)⟩
  let new_param : DrawParam := { param with scale := real_scale }
  match update_instance_properties env gfx new_param with
  | (gfx1, .error e) => (gfx1, .error e)
  | (gfx1, .ok _) =>
    let resolved := gfx1.get_or_insert self.sampler_info
    let gfx2 := resolved.1
    let sampler := resolved.2
    let gfx3 := { gfx2 with vbuf_bound := true, tex := some (self.data, sampler) }
    let step : GfxState × Except GameError (Option BlendMode) :=
      match self.blend_mode with
      | some mode =>
          let current_mode := gfx3.get_blend_mode
          if current_mode ≠ mode then
            match GfxState.set_blend_mode env gfx3 mode with
            | (g, .error e) => (g, .error e)
            | (g, .ok _) => (g, .ok (some current_mode))
          else (gfx3, .ok none)
      | none => (gfx3, .ok none)
    match step with
    | (gfx4, .error e) => (gfx4, .error e)
    | (gfx4, .ok previous_mode) =>
      match GfxState.draw env gfx4 with
      | (gfx5, .error e) => (gfx5, .error e)
      | (gfx5, .ok _) =>
        match previous_mode with
        | some mode =>
            match GfxState.set_blend_mode env gfx5 mode with
            | (g, .error e) => (g, .error e)
            | (g, .ok _) => (g, .ok ())
        | none => (gfx5, .ok ())

/-! ### Concrete fixtures used by witnesses and counterexamples -/

/-- A concrete default sampler descriptor. -/
def si0 : SamplerInfo := ⟨FilterMode.nearest, (WrapMode.clamp, WrapMode.clamp)⟩

/-- The 1×1 image produced by `from_rgba8 1 1 [1,2,3,4]`. -/
def img1x1 : Image :=
  { data := [1, 2, 3, 4], sampler_info := si0, blend_mode := none, width := 1, height := 1 }

/-- A concrete 2×2 image. -/
def img2x2 : Image :=
  { data := [1, 2, 3, 4, 5, 6, 7, 8, 9, 10, 11, 12, 13, 14, 15, 16]
    sampler_info := si0, blend_mode := none, width := 2, height := 2 }

/-- `img2x2` with an explicit `add` blend mode. -/
def imgAdd : Image := { img2x2 with blend_mode := some BlendMode.add }

/-- A concrete initial render-context state whose active blend mode is `alpha`. -/
def gfx0 : GfxState :=
  { blend_mode := BlendMode.alpha, instance_param := none, samplers := []
    vbuf_bound := false, tex := none, draw_log := [] }

/-- Concrete draw parameters: full source rect, scale (2, 3). -/
def param0 : DrawParam := { src := ⟨0, 0, 1, 1⟩, scale := ⟨2, 3⟩, rest := 7 }

/-- The environment in which only the draw call fails. -/
def drawFailEnv : GfxEnv := { okEnv with drawFails := true }

/-- Uninitialized texels of the download buffer, embedded as zeros. -/
def junkZeros : List (List Nat) := [[0, 0, 0, 0], [0, 0, 0, 0], [0, 0, 0, 0]]

/-! ### Helper lemmas -/

lemma make_raw_ok_blend_none (env : GfxEnv) (si : SamplerInfo) (w h : Nat)
    (rgba : List Nat) (img : Image) (b : Bool)
    (heq : Image.make_raw env si w h rgba = (.ok img, b)) :
    img.blend_mode = none := by
  by_cases h1 : w = 0 ∨ h = 0
  · simp [Image.make_raw, h1] at heq
  · by_cases h2 : w * h * 4 ≠ rgba.length
    · simp [Image.make_raw, h1, h2] at heq
    · by_cases h3 : env.allocFails
      · simp [Image.make_raw, h1, h2, h3] at heq
      · simp [Image.make_raw, h1, h2, h3] at heq
        obtain ⟨h4, -⟩ := heq
        subst h4
        rfl

/-! ### Claims -/

/-- C4: for every input with `width == 0` or `height == 0`, `make_raw` (and
hence `from_rgba8`) fails with a resource-load error describing the invalid
size, and returns before any GPU texture allocation is attempted (second
component `false`). -/
theorem make_raw_rejects_zero_dimension (env : GfxEnv) (si : SamplerInfo)
    (width height : Nat) (rgba : List Nat) (hz : width = 0 ∨ height = 0) :
    Image.make_raw env si width height rgba =
      (.error (.ResourceLoadError (sizeErrMsg width height)), false) := by
  unfold Image.make_raw
  rw [if_pos hz]

/-- Witness for C4 at width = 0, height = 5. -/
theorem make_raw_rejects_zero_dimension_witness :
    Image.make_raw okEnv si0 0 5 [] =
      (.error (.ResourceLoadError (sizeErrMsg 0 5)), false) :=
  make_raw_rejects_zero_dimension okEnv si0 0 5 [] (Or.inl rfl)

/-- C5: for nonzero dimensions, raw construction passes validation (and so
attempts the GPU allocation, second component `true`) exactly when the
buffer's length equals `width*height*4`; any other length fails with a
resource-load error naming both the actual and the expected byte counts,
with no allocation attempted. -/
theorem make_raw_buffer_length_validation (env : GfxEnv) (si : SamplerInfo)
    (width height : Nat) (rgba : List Nat) (hw : width ≠ 0) (hh : height ≠ 0) :
    (rgba.length ≠ width * height * 4 →
       Image.make_raw env si width height rgba =
         (.error (.ResourceLoadError
            (lenErrMsg width height rgba.length (width * height * 4))), false)) ∧
    (rgba.length = width * height * 4 →
       (Image.make_raw env si width height rgba).2 = true) := by
  have hz : ¬(width = 0 ∨ height = 0) := by
    rintro (h | h) <;> [exact hw h; exact hh h]
  constructor
  · intro hlen
    unfold Image.make_raw
    rw [if_neg hz, if_pos (Ne.symm hlen)]
  · intro hlen
    unfold Image.make_raw
    rw [if_neg hz, if_neg (by omega : ¬(width * height * 4 ≠ rgba.length))]
    cases hA : env.allocFails <;> simp [hA]

/-- Witness for C5: a 2×1 image with a 3-byte buffer is rejected naming 3
actual vs 8 expected bytes with no allocation; a 1×1 image with a 4-byte
buffer reaches the allocation. -/
theorem make_raw_buffer_length_validation_witness :
    Image.make_raw okEnv si0 2 1 [1, 2, 3] =
      (.error (.ResourceLoadError (lenErrMsg 2 1 3 8)), false) ∧
    (Image.make_raw okEnv si0 1 1 [5, 6, 7, 8]).2 = true :=
  ⟨(make_raw_buffer_length_validation okEnv si0 2 1 [1, 2, 3]
      (by decide) (by decide)).1 (by decide),
   (make_raw_buffer_length_validation okEnv si0 1 1 [5, 6, 7, 8]
      (by decide) (by decide)).2 (by decide)⟩

/-- C9: no mutating operation on an `Image` (`set_filter`, `set_wrap`,
`set_blend_mode`) changes `width` or `height`, hence `width()`, `height()`
and `get_dimensions()` are unchanged. -/
theorem image_dimensions_immutable (img : Image) (mode : FilterMode)
    (wx wy : WrapMode) (m : Option BlendMode) :
    (img.set_filter mode).width = img.width ∧
    (img.set_filter mode).height = img.height ∧
    (img.set_wrap wx wy).width = img.width ∧
    (img.set_wrap wx wy).height = img.height ∧
    (img.set_blend_mode m).width = img.width ∧
    (img.set_blend_mode m).height = img.height ∧
    (img.set_filter mode).width_fn = img.width_fn ∧
    (img.set_filter mode).height_fn = img.height_fn ∧
    (img.set_wrap wx wy).width_fn = img.width_fn ∧
    (img.set_wrap wx wy).height_fn = img.height_fn ∧
    (img.set_blend_mode m).width_fn = img.width_fn ∧
    (img.set_blend_mode m).height_fn = img.height_fn ∧
    (img.set_filter mode).get_dimensions = img.get_dimensions ∧
    (img.set_wrap wx wy).get_dimensions = img.get_dimensions ∧
    (img.set_blend_mode m).get_dimensions = img.get_dimensions := by
  simp [Image.set_filter, Image.set_wrap, Image.set_blend_mode,
        Image.get_dimensions, Image.width_fn, Image.height_fn]

/-- C10: every constructor path (`make_raw`, `from_rgba8`, `solid`, `new`)
that succeeds produces an image whose `blend_mode` is `None`. -/
theorem constructors_blend_mode_none (env : GfxEnv) (si : SamplerInfo)
    (w h : Nat) (rgba : List Nat) (size : Nat) (color : Color)
    (decoded : Except GameError (Nat × Nat × List Nat)) :
    (∀ img b, Image.make_raw env si w h rgba = (.ok img, b) →
       img.blend_mode = none) ∧
    (∀ img b, Image.from_rgba8 env si w h rgba = (.ok img, b) →
       img.blend_mode = none) ∧
    (∀ img b, Image.solid env si size color = (.ok img, b) →
       img.blend_mode = none) ∧
    (∀ img b, Image.new env si decoded = (.ok img, b) →
       img.blend_mode = none) := by
  refine ⟨fun img b heq => make_raw_ok_blend_none env si w h rgba img b heq,
          fun img b heq => make_raw_ok_blend_none env si w h rgba img b heq,
          fun img b heq => ?_, fun img b heq => ?_⟩
  · exact make_raw_ok_blend_none env si size size _ img b heq
  · match decoded with
    | .error e => simp [Image.new] at heq
    | .ok (dw, dh, drgba) =>
        exact make_raw_ok_blend_none env si (dw % 65536) (dh % 65536) drgba img b heq

/-- Witness for C10: the image built by `from_rgba8 1 1 [1,2,3,4]` has no
blend mode. -/
theorem constructors_blend_mode_none_witness : img1x1.blend_mode = none :=
  (constructors_blend_mode_none okEnv si0 1 1 [1, 2, 3, 4] 1 ⟨0, 0, 0, 0⟩
    (.ok (1, 1, [1, 2, 3, 4]))).2.1 img1x1 true rfl

/-- C2 (code bug): `to_rgba8` sizes the readback by
`gfx.data.out.get_dimensions()` — the render target's dimensions — while
the claim (and the function's own doc and its `Vec::with_capacity(self.width
* self.height * 4)` line) promise exactly `width*height*4` bytes of the
image, rows top-to-bottom.  With a 1×1 image and a 2×2 render target the
call succeeds with 16 bytes whose first row is uninitialized buffer
contents, not the image's top row. -/
theorem to_rgba8_uses_render_target_dims_bug :
    Image.to_rgba8 okEnv img1x1 2 2 junkZeros =
      .ok [0, 0, 0, 0, 0, 0, 0, 0, 1, 2, 3, 4, 0, 0, 0, 0] ∧
    (16 : Nat) ≠ img1x1.width * img1x1.height * 4 ∧
    List.take 4 [0, 0, 0, 0, 0, 0, 0, 0, 1, 2, 3, 4, 0, 0, 0, 0] ≠
      List.take 4 img1x1.data :=
  ⟨rfl, by decide, by decide⟩

/-- C3 (code bug): the `from_rgba8` / `to_rgba8` round trip is broken by
the same render-target-dimension slip: uploading `[1,2,3,4]` as a 1×1
image and reading it back with a 2×2 render target yields a 16-byte buffer
instead of the original 4 bytes. -/
theorem from_to_rgba8_roundtrip_bug :
    (Image.from_rgba8 okEnv si0 1 1 [1, 2, 3, 4]).1 = .ok img1x1 ∧
    Image.to_rgba8 okEnv img1x1 2 2 junkZeros =
      .ok [0, 0, 0, 0, 0, 0, 0, 0, 1, 2, 3, 4, 0, 0, 0, 0] ∧
    ([0, 0, 0, 0, 0, 0, 0, 0, 1, 2, 3, 4, 0, 0, 0, 0] : List Nat) ≠
      [1, 2, 3, 4] :=
  ⟨rfl, rfl, by decide⟩

lemma length_flatten_replicate {α : Type} (n : Nat) (l : List α) :
    ((List.replicate n l).flatten).length = n * l.length := by
  induction n with
  | zero => simp
  | succ k ih =>
      rw [List.replicate_succ, List.flatten_cons, List.length_append, ih,
          Nat.succ_mul, Nat.add_comm]

lemma chunksOf_flatten_replicate {α : Type} (l : List α) (hl : l ≠ []) (n : Nat) :
    chunksOf l.length ((List.replicate n l).flatten) = List.replicate n l := by
  cases l with
  | nil => exact absurd rfl hl
  | cons a t =>
      induction n with
      | zero => simp [chunksOf_nil]
      | succ k ih =>
          rw [List.replicate_succ, List.flatten_cons, List.cons_append,
              chunksOf_cons _ (by simp) a _]
          have htake : List.take (a :: t).length ((a :: t) ++ (List.replicate k (a :: t)).flatten)
              = a :: t := List.take_left _ _
          have hdrop : List.drop (a :: t).length ((a :: t) ++ (List.replicate k (a :: t)).flatten)
              = (List.replicate k (a :: t)).flatten := List.drop_left _ _
          rw [List.cons_append] at htake hdrop
          simp only [List.length_cons] at htake hdrop ih ⊢
          rw [htake, hdrop, ih]

/-- C7: for every nonzero `size` (and a successful GPU allocation),
`solid(size, color)` yields a `size×size` image whose pixel data is the
color's 4-byte RGBA value repeated `size*size` times — i.e. every 4-byte
pixel equals the color; for `size = 0` it fails with the same
invalid-parameter error as direct zero-dimension construction. -/
theorem solid_pixels_and_zero_size (env : GfxEnv) (si : SamplerInfo)
    (size : Nat) (color : Color) :
    (size ≠ 0 → env.allocFails = false →
       Image.solid env si size color =
         (.ok { data := (List.replicate (size * size)
                  [color.r, color.g, color.b, color.a]).flatten,
                sampler_info := si, blend_mode := none,
                width := size, height := size }, true) ∧
       chunksOf 4 ((List.replicate (size * size)
           [color.r, color.g, color.b, color.a]).flatten) =
         List.replicate (size * size) [color.r, color.g, color.b, color.a]) ∧
    (size = 0 →
       Image.solid env si size color =
         (.error (.ResourceLoadError (sizeErrMsg 0 0)), false)) := by
  constructor
  · intro hsz ha
    constructor
    · simp only [Image.solid, Image.from_rgba8, Image.make_raw]
      rw [if_neg (by simp [hsz] : ¬(size = 0 ∨ size = 0))]
      rw [if_neg (by rw [length_flatten_replicate]; simp :
            ¬(size * size * 4 ≠
              ((List.replicate (size * size)
                 [color.r, color.g, color.b, color.a]).flatten).length))]
      rw [if_neg (by simp [ha])]
    · have h := chunksOf_flatten_replicate
        [color.r, color.g, color.b, color.a] (by simp) (size * size)
      simpa using h
  · intro hz
    subst hz
    rfl

/-- Witness for C7 at size 2 with color (10,20,30,40), plus the size-0
failure. -/
theorem solid_pixels_and_zero_size_witness :
    Image.solid okEnv si0 2 ⟨10, 20, 30, 40⟩ =
      (.ok { data := [10, 20, 30, 40, 10, 20, 30, 40,
                      10, 20, 30, 40, 10, 20, 30, 40],
             sampler_info := si0, blend_mode := none,
             width := 2, height := 2 }, true) ∧
    chunksOf 4 ([10, 20, 30, 40, 10, 20, 30, 40,
                 10, 20, 30, 40, 10, 20, 30, 40] : List Nat) =
      List.replicate 4 [10, 20, 30, 40] ∧
    Image.solid okEnv si0 0 ⟨10, 20, 30, 40⟩ =
      (.error (.ResourceLoadError (sizeErrMsg 0 0)), false) := by
  have h := solid_pixels_and_zero_size okEnv si0 2 ⟨10, 20, 30, 40⟩
  have h0 := solid_pixels_and_zero_size okEnv si0 0 ⟨10, 20, 30, 40⟩
  exact ⟨(h.1 (by decide) rfl).1, (h.1 (by decide) rfl).2, h0.2 rfl⟩

/-- C8: when an image carries no explicit blend mode, `draw_ex` never calls
`set_blend_mode`, so the context's active blend mode after the call —
whichever backend operations succeed or fail — equals its pre-call value. -/
theorem draw_ex_no_blend_mode_preserves_context (env : GfxEnv) (img : Image)
    (gfx : GfxState) (param : DrawParam) (h : img.blend_mode = none) :
    ((Image.draw_ex env img gfx param).1).blend_mode = gfx.blend_mode := by
  unfold Image.draw_ex
  rw [h]
  rcases env with ⟨u, s, d, af, bf, cf, mf⟩
  cases u <;> cases d <;>
    simp [update_instance_properties, GfxState.get_or_insert, GfxState.draw,
          GfxState.get_blend_mode, GfxState.set_blend_mode] <;>
    split <;> simp

/-- Witness for C8: drawing the blend-mode-less `img2x2` (with a failing
draw call, exercising the failure path too) leaves `gfx0`'s mode `alpha`. -/
theorem draw_ex_no_blend_mode_preserves_context_witness :
    ((Image.draw_ex drawFailEnv img2x2 gfx0 param0).1).blend_mode =
      gfx0.blend_mode :=
  draw_ex_no_blend_mode_preserves_context drawFailEnv img2x2 gfx0 param0 rfl

/-- C6: whenever the instance-property upload succeeds, the parameters
pushed to the instance buffer are the caller's with the scale replaced by
(source-rect width × scale-x × image width, source-rect height × scale-y ×
image height); the source rect and the remaining fields are unchanged. -/
theorem draw_ex_effective_scale (env : GfxEnv) (img : Image) (gfx : GfxState)
    (param : DrawParam) (hu : env.updateFails = false) :
    ((Image.draw_ex env img gfx param).1).instance_param =
      some { param with scale :=
               ⟨param.src.w * param.scale.x * (img.width : ℚ),
                param.src.h * param.scale.y * (img.height : ℚ)⟩ } := by
  rcases env with ⟨u, s, d, af, bf, cf, mf⟩
  have hu' : u = false := hu
  subst hu'
  by_cases hmem : img.sampler_info ∈ gfx.samplers <;>
    cases himg : img.blend_mode <;> cases s <;> cases d <;>
      simp [Image.draw_ex, update_instance_properties, GfxState.get_or_insert,
            GfxState.draw, GfxState.get_blend_mode, GfxState.set_blend_mode,
            hmem, himg] <;>
      split_ifs <;> simp

/-- Witness for C6: drawing `img2x2` (2×2) with full source rect and scale
(2, 3) uploads the effective scale (1·2·2, 1·3·2) = (4, 6). -/
theorem draw_ex_effective_scale_witness :
    ((Image.draw_ex okEnv img2x2 gfx0 param0).1).instance_param =
      some { src := ⟨0, 0, 1, 1⟩, scale := ⟨4, 6⟩, rest := 7 } := by
  have h := draw_ex_effective_scale okEnv img2x2 gfx0 param0 rfl
  rw [h]
  norm_num [param0, img2x2]

/-- C1 counterexample: with the draw call itself failing, an image whose
explicit `add` mode differs from the context's active `alpha` mode leaves
the context switched to `add` — the pre-call mode is NOT restored on the
failure path (`gfx.draw(None)?` returns before the restore). -/
theorem blend_mode_not_restored_after_failed_draw :
    imgAdd.blend_mode = some BlendMode.add ∧
    gfx0.blend_mode = BlendMode.alpha ∧
    (Image.draw_ex drawFailEnv imgAdd gfx0 param0).2 =
      .error (.RenderError "draw failed") ∧
    ((Image.draw_ex drawFailEnv imgAdd gfx0 param0).1).blend_mode =
      BlendMode.add ∧
    ((Image.draw_ex drawFailEnv imgAdd gfx0 param0).1).blend_mode ≠
      gfx0.blend_mode :=
  ⟨rfl, rfl, rfl, rfl, by intro h; exact BlendMode.noConfusion (h.trans rfl)⟩

/-- C1 (amended): for an image with an explicit blend mode differing from
the context's current one (and the upload and mode-switch succeeding),
`draw_ex` switches the context to the image's mode before the draw call and,
when the draw call succeeds, restores the pre-call mode before returning;
when the draw call fails, the error propagates and the context is left on
the image's mode (no restore on the failure path). -/
theorem draw_ex_blend_reconciliation_amended (env : GfxEnv) (img : Image)
    (gfx : GfxState) (param : DrawParam) (mode : BlendMode)
    (hm : img.blend_mode = some mode) (hne : gfx.blend_mode ≠ mode)
    (hu : env.updateFails = false) (hs : env.setBlendFails = false) :
    (env.drawFails = false →
       ((Image.draw_ex env img gfx param).1).blend_mode = gfx.blend_mode ∧
       ((Image.draw_ex env img gfx param).1).draw_log =
         gfx.draw_log ++ [mode] ∧
       (Image.draw_ex env img gfx param).2 = .ok ()) ∧
    (env.drawFails = true →
       ((Image.draw_ex env img gfx param).1).blend_mode = mode ∧
       (Image.draw_ex env img gfx param).2 =
         .error (.RenderError "draw failed")) := by
  rcases env with ⟨u, s, d, af, bf, cf, mf⟩
  have hu' : u = false := hu
  have hs' : s = false := hs
  subst hu' hs'
  cases d
  · refine ⟨fun _ => ?_, fun hd => by simp at hd⟩
    by_cases hmem : img.sampler_info ∈ gfx.samplers <;>
      simp [Image.draw_ex, update_instance_properties, GfxState.get_or_insert,
            GfxState.draw, GfxState.get_blend_mode, GfxState.set_blend_mode,
            hmem, hm, hne]
  · refine ⟨fun hd => by simp at hd, fun _ => ?_⟩
    by_cases hmem : img.sampler_info ∈ gfx.samplers <;>
      simp [Image.draw_ex, update_instance_properties, GfxState.get_or_insert,
            GfxState.draw, GfxState.get_blend_mode, GfxState.set_blend_mode,
            hmem, hm, hne]

/-- Witness for the amended C1: drawing `imgAdd` (explicit `add` mode) on
`gfx0` (active mode `alpha`) with every backend operation succeeding draws
with `add` active and returns with `alpha` restored. -/
theorem draw_ex_blend_reconciliation_amended_witness :
    ((Image.draw_ex okEnv imgAdd gfx0 param0).1).blend_mode =
      gfx0.blend_mode ∧
    ((Image.draw_ex okEnv imgAdd gfx0 param0).1).draw_log =
      gfx0.draw_log ++ [BlendMode.add] ∧
    (Image.draw_ex okEnv imgAdd gfx0 param0).2 = .ok () :=
  (draw_ex_blend_reconciliation_amended okEnv imgAdd gfx0 param0
    BlendMode.add rfl (by decide) rfl rfl).1 rfl
